import Mathlib

/-!
Shallow embedding of `src/smart_email_summarizer.py` (content extraction,
summarization adapter, retry wrapper, output sink, orchestrator loop body).

The program manipulates mail messages exclusively through the Python `email`
library API (`is_multipart`, `walk`, `get_content_type`,
`get("Content-Disposition")`, `get_content_charset`, `get_payload(decode=True)`,
`email.header.decode_header`).  A message is therefore embedded as the view the
program obtains through that API: a list of header-decoding chunks for the
Subject, a flat list of parts in `walk()` document order for the multipart
case, and the message's own part for the single-part case.

Python's `bytes.decode(name, errors="ignore")` succeeds on a known codec
(dropping undecodable byte sequences) and raises `LookupError` on an unknown
codec name; that behaviour is embedded by `pyDecodeIgnore`.  Exceptions are
embedded as `Except PyError`.
-/

/-- The byte-level behaviour of the external summarization service (the OpenAI
call or the transformers pipeline), indexed by invocation number: each
invocation either returns a summary string or raises (embedded as
`Except.error` with the exception message). -/
abbrev Backend := Nat → Except String String

/-- Errors the Python code can raise: `LookupError` from `bytes.decode` with an
unknown codec name. -/
inductive PyError where
  | lookupError (codec : String)
deriving DecidableEq

/-- Decidable equality for `Except`, used to evaluate the embedding on
concrete inputs. -/
instance {ε α : Type} [DecidableEq ε] [DecidableEq α] : DecidableEq (Except ε α) := fun x y =>
  match x, y with
  | Except.error e, Except.error f =>
    if h : e = f then isTrue (by rw [h]) else isFalse (fun hc => h (Except.error.inj hc))
  | Except.ok a, Except.ok b =>
    if h : a = b then isTrue (by rw [h]) else isFalse (fun hc => h (Except.ok.inj hc))
  | Except.error _, Except.ok _ => isFalse (fun hc => Except.noConfusion hc)
  | Except.ok _, Except.error _ => isFalse (fun hc => Except.noConfusion hc)

/-- Model of Python `str.startswith` (`pre` is a leading substring of `s`). -/
def pyStartsWith (s pre : String) : Bool :=
  pre.data.isPrefixOf s.data

/-- Substring scan used to model Python's `pat in s`. -/
def containsSub : List Char → List Char → Bool
  | [], pat => pat.isEmpty
  | c :: rest, pat => pat.isPrefixOf (c :: rest) || containsSub rest pat

/-- Model of Python `pat in s` for strings. -/
def strContains (s pat : String) : Bool :=
  containsSub s.data pat.data

/-- Whitespace stripped by Python `str.strip()` (ASCII whitespace). -/
def isPyWhitespace (c : Char) : Bool :=
  c = ' ' || c = '\t' || c = '\n' || c = '\r' || c = '\x0b' || c = '\x0c'

/-- Model of Python `str.strip()`. -/
def pyStrip (s : String) : String :=
  String.mk (((s.data.dropWhile isPyWhitespace).reverse.dropWhile isPyWhitespace).reverse)

/-- One byte is a UTF-8 continuation byte. -/
def isCont (b : Nat) : Bool :=
  0x80 ≤ b && b < 0xC0

/-- Start decoding one UTF-8 sequence at lead byte `b`: either emit an ASCII
character, ignore an invalid lead byte, or open a multi-byte sequence
(remaining continuation count, accumulated code point). -/
def utf8Start (b : Nat) : Option (Nat × Nat) × List Char :=
  if b < 0x80 then (none, [Char.ofNat b])
  else if b < 0xC2 then (none, [])
  else if b < 0xE0 then (some (1, b - 0xC0), [])
  else if b < 0xF0 then (some (2, b - 0xE0), [])
  else if b < 0xF5 then (some (3, b - 0xF0), [])
  else (none, [])

/-- Byte-at-a-time UTF-8 decoding loop with Python's `errors="ignore"` policy:
invalid bytes and truncated sequences are dropped instead of raising. -/
def utf8Loop : Option (Nat × Nat) → List Nat → List Char
  | _, [] => []
  | none, b :: rest =>
    (utf8Start b).2 ++ utf8Loop (utf8Start b).1 rest
  | some (need, acc), b :: rest =>
    if isCont b then
      if need = 1 then Char.ofNat (acc * 0x40 + (b - 0x80)) :: utf8Loop none rest
      else utf8Loop (some (need - 1, acc * 0x40 + (b - 0x80))) rest
    else
      (utf8Start b).2 ++ utf8Loop (utf8Start b).1 rest

/-- UTF-8 decoding with `errors="ignore"`. -/
def utf8DecodeIgnore (bs : List Nat) : List Char :=
  utf8Loop none bs

/-- Latin-1 decoding: every byte maps to the code point of the same value. -/
def latin1Decode (bs : List Nat) : List Char :=
  bs.map Char.ofNat

/-- ASCII decoding with `errors="ignore"`: bytes above 0x7F are dropped. -/
def asciiDecodeIgnore (bs : List Nat) : List Char :=
  (bs.filter (fun b => b < 0x80)).map Char.ofNat

/-- Codec names the embedding's codec registry knows (Python knows these and
many more; an unregistered name raises `LookupError`). -/
def knownCodec (name : String) : Bool :=
  name = "utf-8" || name = "utf8" || name = "ascii" || name = "us-ascii" ||
  name = "latin-1" || name = "latin1" || name = "iso-8859-1" || name = "iso8859-1"

/-- Decode bytes with a registered codec under the `errors="ignore"` policy. -/
def codecDecodeIgnore (name : String) (bs : List Nat) : String :=
  if name = "utf-8" || name = "utf8" then String.mk (utf8DecodeIgnore bs)
  else if name = "ascii" || name = "us-ascii" then String.mk (asciiDecodeIgnore bs)
  else String.mk (latin1Decode bs)

/-- Model of Python `bytes.decode(name, errors="ignore")`: a known codec
decodes best-effort, an unknown codec name raises `LookupError` (the
`errors="ignore"` argument does not prevent that). -/
def pyDecodeIgnore (name : String) (bs : List Nat) : Except PyError String :=
  if knownCodec name then Except.ok (codecDecodeIgnore name bs)
  else Except.error (PyError.lookupError name)

/-- One chunk of `email.header.decode_header`'s result: either an already
decoded string or raw bytes with an optional charset name. -/
inductive HeaderChunk where
  | str (s : String)
  | bytes (bs : List Nat) (charset : Option String)
deriving DecidableEq

/-- One MIME part as seen through the Python email API: content type,
raw `Content-Disposition` header (if present), declared charset (if any),
and the decoded-transfer-encoding payload bytes. -/
structure MimePart where
  contentType : String
  dispositionHeader : Option String
  charset : Option String
  payload : List Nat
deriving DecidableEq

/-- A parsed mail message as seen through the Python email API:
`From` header, `decode_header` chunks of the Subject, `is_multipart()`,
the parts yielded by `walk()` (multipart case), and the message's own
content (single-part case). -/
structure EmailMsg where
  fromHeader : Option String
  subjectChunks : List HeaderChunk
  isMultipart : Bool
  walkParts : List MimePart
  selfPart : MimePart
deriving DecidableEq

/-- Result record of `extract_email_content`. -/
structure ParsedMessage where
  sender : String
  subject : String
  body : String
deriving DecidableEq

/-- `str(part.get("Content-Disposition"))`: `None` renders as `"None"`. -/
def dispStr (p : MimePart) : String :=
  p.dispositionHeader.getD "None"

/-- The first loop's selection test: plain text and not an attachment
(source line 63). -/
def qualifiesPlain (p : MimePart) : Bool :=
  p.contentType = "text/plain" && !(strContains (dispStr p) "attachment")

/-- The fallback loop's selection test: HTML, with no disposition check
(source line 70). -/
def isHtmlPart (p : MimePart) : Bool :=
  p.contentType = "text/html"

/-- `part.get_payload(decode=True).decode(part.get_content_charset() or
"utf-8", errors="ignore")` (source lines 64-65, 71-74, 79-83). -/
def decodePart (p : MimePart) : Except PyError String :=
  pyDecodeIgnore (p.charset.getD "utf-8") p.payload

/-- Decoding of one subject chunk (source lines 55-57): a `str` chunk is used
as-is; a `bytes` chunk is decoded with its charset, defaulting to `"utf-8"`. -/
def decodeChunk : HeaderChunk → Except PyError String
  | HeaderChunk.str s => Except.ok s
  | HeaderChunk.bytes bs cs => pyDecodeIgnore (cs.getD "utf-8") bs

/-- Body selection (source lines 58-83): multipart scans `walk()` order for the
first plain-text non-attachment part, then falls back to the first HTML part;
single-part decodes the payload when the content type is plain text or HTML,
otherwise the body stays empty. -/
def extractBody (m : EmailMsg) : Except PyError String :=
  if m.isMultipart then
    match m.walkParts.find? qualifiesPlain with
    | some p => decodePart p
    | none =>
      match m.walkParts.find? isHtmlPart with
      | some p => decodePart p
      | none => Except.ok ""
  else
    if m.selfPart.contentType = "text/plain" then decodePart m.selfPart
    else if m.selfPart.contentType = "text/html" then decodePart m.selfPart
    else Except.ok ""

/-- `extract_email_content` (source lines 51-84).  The subject uses only
`decode_header(...)[0]`, i.e. the first chunk; `decode_header` never returns an
empty list (a missing or empty Subject yields one `str ""` chunk), which the
`headD` default mirrors. -/
def extract_email_content (m : EmailMsg) : Except PyError ParsedMessage :=
  match decodeChunk (m.subjectChunks.headD (HeaderChunk.str "")) with
  | Except.error e => Except.error e
  | Except.ok subject =>
    match extractBody m with
    | Except.error e => Except.error e
    | Except.ok body => Except.ok ⟨m.fromHeader.getD "", subject, body⟩

/-- Python truthiness of an `Optional[str]`. -/
def truthy : Option String → Bool
  | none => false
  | some s => s ≠ ""

/-- `summarize_text` (source lines 87-115), instrumented with a counter `n` of
invocations of the underlying service.  The `try/except Exception` blocks of
the source appear as the `match` on the service outcome: every service failure
is caught and rendered as a placeholder string.  The OpenAI branch strips the
response (`.strip()`); the unconfigured branch performs no service call. -/
def summarize_text (text : String) (method : String) (openai_api_key : Option String)
    (backend : Backend) (n : Nat) : String × Nat :=
  if method = "openai" ∧ truthy openai_api_key = true then
    match backend n with
    | Except.ok s => (pyStrip s, n + 1)
    | Except.error _ => ("[Summary unavailable due to API error]", n + 1)
  else if method = "transformer" then
    match backend n with
    | Except.ok s => (s, n + 1)
    | Except.error _ => ("[Summary unavailable due to summarization error]", n + 1)
  else
    ("[No summarization method available]", n)

/-- Result of the retry wrapper, instrumented with the number of underlying
service invocations and the number of `summarize_text` (adapter) calls. -/
structure RetryResult where
  summary : String
  backendCalls : Nat
  adapterCalls : Nat
deriving DecidableEq

/-- `try_summarize_text` (source lines 118-126): call `summarize_text` once and
repeat the call exactly when the first result starts with
`"[Summary unavailable"`. -/
def try_summarize_text (text : String) (method : String) (key : Option String)
    (backend : Backend) : RetryResult :=
  let r1 := summarize_text text method key backend 0
  if pyStartsWith r1.1 "[Summary unavailable" then
    let r2 := summarize_text text method key backend r1.2
    ⟨r2.1, r2.2, 2⟩
  else
    ⟨r1.1, r1.2, 1⟩

/-- The four-line record block of `output_summary` (source line 132). -/
def formatBlock (sender subject summary : String) : String :=
  "From: " ++ sender ++ "\nSubject: " ++ subject ++ "\nSummary: " ++ summary
    ++ "\n" ++ String.mk (List.replicate 40 '-')

/-- `output_summary` (source lines 129-136) over an explicit file-system state
(path to file content; `none` means the file does not exist).  Returns the
console output and the new file-system state: with a destination, the block
plus a newline is appended (`open(save_file, "a")` creates the file if
absent). -/
def output_summary (sender subject summary : String) (save_file : Option String)
    (fs : String → Option String) : String × (String → Option String) :=
  let block := formatBlock sender subject summary
  match save_file with
  | none => (block, fs)
  | some path =>
    (block, fun q => if q = path then some ((fs path).getD "" ++ block ++ "\n") else fs q)

/-- Configuration of the orchestrator loop (source lines 155-169). -/
structure Config where
  method : String
  openai_api_key : Option String
  backend : Backend
  mark_read : Bool
  save_file : Option String

/-- Observable outcome of one loop iteration of `main`. -/
structure StepResult where
  skipped : Bool
  adapterCalls : Nat
  backendCalls : Nat
  consoleOut : Option String
  markedRead : Bool
deriving DecidableEq

/-- The per-message body of `main`'s loop (source lines 175-185): extract; skip
when the stripped body is empty (no summarization, no output, no mark-as-read);
otherwise summarize with retry, emit through the output sink, and mark as read
exactly when the flag is set. -/
def processMessage (cfg : Config) (m : EmailMsg) (fs : String → Option String) :
    Except PyError (StepResult × (String → Option String)) :=
  match extract_email_content m with
  | Except.error e => Except.error e
  | Except.ok pm =>
    if pyStrip pm.body = "" then
      Except.ok (⟨true, 0, 0, none, false⟩, fs)
    else
      let r := try_summarize_text pm.body cfg.method cfg.openai_api_key cfg.backend
      let pr := output_summary pm.sender pm.subject r.summary cfg.save_file fs
      Except.ok (⟨false, r.adapterCalls, r.backendCalls, some pr.1, cfg.mark_read⟩, pr.2)

/-- ASCII string to payload bytes, for concrete examples. -/
def asciiBytes (s : String) : List Nat :=
  s.data.map Char.toNat

/-! ## Helper lemmas -/

/-- `find?` returns the first element of the list satisfying the test. -/
theorem find_first {α : Type} (pr : α → Bool) (l₁ : List α) (a : α) (l₂ : List α)
    (ha : pr a = true) (h₁ : ∀ q ∈ l₁, pr q = false) :
    (l₁ ++ a :: l₂).find? pr = some a := by
  induction l₁ with
  | nil => simp [List.find?, ha]
  | cons x xs ih =>
    have hx : pr x = false := h₁ x (List.mem_cons_self x xs)
    simp only [List.cons_append, List.find?, hx]
    exact ih (fun q hq => h₁ q (List.mem_cons_of_mem x hq))

/-- A successful extraction decomposes into the sender, the decode of the
first subject chunk, and the body selection. -/
theorem extract_ok_parts (m : EmailMsg) (r : ParsedMessage)
    (h : extract_email_content m = Except.ok r) :
    r.sender = m.fromHeader.getD "" ∧
    decodeChunk (m.subjectChunks.headD (HeaderChunk.str "")) = Except.ok r.subject ∧
    extractBody m = Except.ok r.body := by
  unfold extract_email_content at h
  cases hs : decodeChunk (m.subjectChunks.headD (HeaderChunk.str "")) with
  | error e => rw [hs] at h; exact absurd h (by simp)
  | ok subj =>
    rw [hs] at h
    cases hb : extractBody m with
    | error e => rw [hb] at h; exact absurd h (by simp)
    | ok body =>
      rw [hb] at h
      have h2 : (⟨m.fromHeader.getD "", subj, body⟩ : ParsedMessage) = r := by
        simpa using h
      subst h2
      exact ⟨rfl, rfl, rfl⟩

/-- The console line of the output sink is always the four-line block. -/
theorem output_summary_console (sender subject summary : String) (d : Option String)
    (fs : String → Option String) :
    (output_summary sender subject summary d fs).1 = formatBlock sender subject summary := by
  cases d <;> rfl

/-- A part with a registered charset decodes without raising. -/
theorem decodePart_known (p : MimePart) (h : knownCodec (p.charset.getD "utf-8") = true) :
    decodePart p = Except.ok (codecDecodeIgnore (p.charset.getD "utf-8") p.payload) := by
  simp [decodePart, pyDecodeIgnore, h]

/-! ## Claims -/

/-- C4: for every input text and every backend behaviour, the summarization
adapter is total: it always returns a plain string, which is either the
service's success value (stripped in the OpenAI branch, verbatim in the
transformer branch) or one of the three tagged placeholder strings; every
service-layer failure is caught at the adapter boundary and converted to a
placeholder. -/
theorem C4_adapter_tagged (text method : String) (key : Option String)
    (b : Backend) (n : Nat) :
    summarize_text text method key b n = ("[No summarization method available]", n) ∨
    (∃ e, b n = Except.error e ∧
      (summarize_text text method key b n = ("[Summary unavailable due to API error]", n + 1) ∨
       summarize_text text method key b n
          = ("[Summary unavailable due to summarization error]", n + 1))) ∨
    (∃ s, b n = Except.ok s ∧
      (summarize_text text method key b n = (pyStrip s, n + 1) ∨
       summarize_text text method key b n = (s, n + 1))) := by
  by_cases h1 : method = "openai" ∧ truthy key = true
  · cases hb : b n with
    | error e =>
      exact Or.inr (Or.inl ⟨e, rfl, Or.inl (by simp [summarize_text, h1, hb])⟩)
    | ok s =>
      exact Or.inr (Or.inr ⟨s, rfl, Or.inl (by simp [summarize_text, h1, hb])⟩)
  · by_cases h2 : method = "transformer"
    · cases hb : b n with
      | error e =>
        exact Or.inr (Or.inl ⟨e, rfl, Or.inr (by simp [summarize_text, h1, h2, hb])⟩)
      | ok s =>
        exact Or.inr (Or.inr ⟨s, rfl, Or.inr (by simp [summarize_text, h1, h2, hb])⟩)
    · exact Or.inl (by simp [summarize_text, h1, h2])

/-- C5: with the (default) transformer backend variant, for every service stub
that fails on the first invocation, the retry wrapper returns the success value
when the second invocation succeeds; when the second invocation also fails it
returns the fixed failure placeholder, with the service invoked exactly twice
and the adapter called exactly twice, never more. -/
theorem C5_retry_policy (text : String) (b : Backend) (e1 : String)
    (h0 : b 0 = Except.error e1) :
    (∀ s, b 1 = Except.ok s →
        (try_summarize_text text "transformer" none b).summary = s) ∧
    (∀ e2, b 1 = Except.error e2 →
        (try_summarize_text text "transformer" none b).summary
            = "[Summary unavailable due to summarization error]" ∧
        (try_summarize_text text "transformer" none b).backendCalls = 2 ∧
        (try_summarize_text text "transformer" none b).adapterCalls = 2) := by
  have hno : ¬(("transformer" : String) = "openai" ∧ truthy (none : Option String) = true) := by
    decide
  have hfirst : summarize_text text "transformer" none b 0
      = ("[Summary unavailable due to summarization error]", 1) := by
    simp [summarize_text, hno, h0]
  have hsw : pyStartsWith "[Summary unavailable due to summarization error]"
      "[Summary unavailable" = true := by decide
  constructor
  · intro s hs
    have hsecond : summarize_text text "transformer" none b 1 = (s, 2) := by
      simp [summarize_text, hno, hs]
    simp [try_summarize_text, hfirst, hsecond, hsw]
  · intro e2 hs
    have hsecond : summarize_text text "transformer" none b 1
        = ("[Summary unavailable due to summarization error]", 2) := by
      simp [summarize_text, hno, hs]
    simp [try_summarize_text, hfirst, hsecond, hsw]

/-- Concrete service stub: fails on the first invocation, succeeds after. -/
def stubFailThenOk : Backend := fun n =>
  if n = 0 then Except.error "boom" else Except.ok "All good."

/-- Witness for C5 at a concrete stub: the wrapper returns the second
attempt's success value. -/
theorem C5_retry_policy_witness :
    (try_summarize_text "t" "transformer" none stubFailThenOk).summary = "All good." :=
  (C5_retry_policy "t" stubFailThenOk "boom" rfl).1 "All good." rfl

/-- The adapter is configured when a variant will actually run: OpenAI with a
non-empty key, or the transformer method. -/
def methodConfigured (method : String) (key : Option String) : Prop :=
  (method = "openai" ∧ truthy key = true) ∨ method = "transformer"

instance (method : String) (key : Option String) : Decidable (methodConfigured method key) := by
  unfold methodConfigured
  exact inferInstance

/-- Concrete service stub that always fails. -/
def stubAlwaysFail : Backend := fun _ => Except.error "down"

/-- C1 (counterexample): with no backend configured the first attempt yields
the `BackendUnavailable` placeholder, yet the wrapper does not retry — the
adapter is called exactly once, not twice, because the unavailable placeholder
does not start with the `"[Summary unavailable"` marker the wrapper checks. -/
theorem C1_retry_counterexample :
    (try_summarize_text "hello" "none" none stubAlwaysFail).summary
        = "[No summarization method available]" ∧
    ¬((try_summarize_text "hello" "none" none stubAlwaysFail).adapterCalls = 2) := by
  decide

/-- C1 (amended): if the first adapter invocation yields a `BackendError`
placeholder (a configured backend whose service call failed), the wrapper
invokes the adapter exactly one more time and returns whatever the second
attempt yields; but with no backend configured the wrapper does not retry: it
returns the unavailable placeholder after a single adapter call, with the
underlying service never invoked. -/
theorem C1_retry_amended (text method : String) (key : Option String) (b : Backend) :
    (¬methodConfigured method key →
        try_summarize_text text method key b
          = ⟨"[No summarization method available]", 0, 1⟩) ∧
    (methodConfigured method key →
        ∀ e, b 0 = Except.error e →
          (try_summarize_text text method key b).summary
              = (summarize_text text method key b 1).1 ∧
          (try_summarize_text text method key b).adapterCalls = 2 ∧
          (try_summarize_text text method key b).backendCalls = 2) := by
  constructor
  · intro h
    have h1 : ¬(method = "openai" ∧ truthy key = true) := fun hc => h (Or.inl hc)
    have h2 : ¬method = "transformer" := fun hc => h (Or.inr hc)
    have hsw : pyStartsWith "[No summarization method available]"
        "[Summary unavailable" = false := by decide
    have hfirst : summarize_text text method key b 0
        = ("[No summarization method available]", 0) := by
      simp [summarize_text, h1, h2]
    simp [try_summarize_text, hfirst, hsw]
  · intro hconf e hb
    have hsw1 : pyStartsWith "[Summary unavailable due to API error]"
        "[Summary unavailable" = true := by decide
    have hsw2 : pyStartsWith "[Summary unavailable due to summarization error]"
        "[Summary unavailable" = true := by decide
    rcases hconf with ⟨ho, hk⟩ | ht
    · have hfirst : summarize_text text method key b 0
          = ("[Summary unavailable due to API error]", 1) := by
        simp [summarize_text, ho, hk, hb]
      have hsecond : (summarize_text text method key b 1).2 = 2 := by
        cases hb1 : b 1 <;> simp [summarize_text, ho, hk, hb1]
      simp [try_summarize_text, hfirst, hsw1, hsecond]
    · have hno : ¬(method = "openai" ∧ truthy key = true) := by
        intro hc
        rw [ht] at hc
        exact absurd hc.1 (by decide)
      have hfirst : summarize_text text method key b 0
          = ("[Summary unavailable due to summarization error]", 1) := by
        simp [summarize_text, hno, ht, hb]
      have hsecond : (summarize_text text method key b 1).2 = 2 := by
        cases hb1 : b 1 <;> simp [summarize_text, hno, ht, hb1]
      simp [try_summarize_text, hfirst, hsw2, hsecond]

/-- Witness for the amended C1: a configured transformer backend whose service
failed on the first call is retried (two adapter calls, two service calls). -/
theorem C1_retry_amended_witness :
    (try_summarize_text "t" "transformer" none stubAlwaysFail).summary
        = (summarize_text "t" "transformer" none stubAlwaysFail 1).1 ∧
    (try_summarize_text "t" "transformer" none stubAlwaysFail).adapterCalls = 2 ∧
    (try_summarize_text "t" "transformer" none stubAlwaysFail).backendCalls = 2 :=
  (C1_retry_amended "t" "transformer" none stubAlwaysFail).2 (Or.inr rfl) "down" rfl

/-- C9: with a destination configured, the output sink appends the four-line
block plus a trailing newline to that file (creating it when absent), leaves
every other file and all prior content of the destination unchanged, and
replaying the same record appends a second copy after the first — strictly
append-only growth, never an overwrite. -/
theorem C9_output_append_only (sender subject summary path : String)
    (fs : String → Option String) :
    (output_summary sender subject summary (some path) fs).2 path
        = some ((fs path).getD "" ++ formatBlock sender subject summary ++ "\n") ∧
    (∀ q, q ≠ path → (output_summary sender subject summary (some path) fs).2 q = fs q) ∧
    (output_summary sender subject summary (some path)
        ((output_summary sender subject summary (some path) fs).2)).2 path
        = some ((fs path).getD "" ++ formatBlock sender subject summary ++ "\n"
            ++ formatBlock sender subject summary ++ "\n") := by
  refine ⟨by simp [output_summary], fun q hq => by simp [output_summary, hq], ?_⟩
  simp [output_summary]

/-- A subject chunk whose charset is registered (a `str` chunk always is). -/
def chunkCodecKnown : HeaderChunk → Bool
  | HeaderChunk.str _ => true
  | HeaderChunk.bytes _ cs => knownCodec (cs.getD "utf-8")

/-- Concrete message whose subject was encoded with an unknown charset name. -/
def unknownCharsetMsg : EmailMsg :=
  ⟨some "bob@example.com",
   [HeaderChunk.bytes [104, 105] (some "x-unknown-charset")],
   false, [],
   ⟨"text/plain", none, none, [104, 105]⟩⟩

/-- C2 (counterexample): extraction can fail.  A subject header whose encoded
word names an unknown character set makes `subject.decode(encoding or "utf-8",
errors="ignore")` raise `LookupError` — the code only falls back to UTF-8 when
the charset is absent, not when it is unknown, and `errors="ignore"` does not
suppress the codec lookup failure. -/
theorem C2_extract_counterexample :
    extract_email_content unknownCharsetMsg
        = Except.error (PyError.lookupError "x-unknown-charset") := by
  decide

/-- C2 (amended): extraction never fails as long as every charset named in the
message (subject chunk, multipart parts, single-part content) is a registered
codec; decode errors from invalid byte sequences degrade to best-effort text.
An unknown charset name, however, raises a lookup error. -/
theorem C2_extract_total_amended (m : EmailMsg)
    (hsubj : chunkCodecKnown (m.subjectChunks.headD (HeaderChunk.str "")) = true)
    (hparts : ∀ p ∈ m.walkParts, knownCodec (p.charset.getD "utf-8") = true)
    (hself : knownCodec (m.selfPart.charset.getD "utf-8") = true) :
    ∃ r, extract_email_content m = Except.ok r := by
  have hsub : ∃ s, decodeChunk (m.subjectChunks.headD (HeaderChunk.str "")) = Except.ok s := by
    cases hc : m.subjectChunks.headD (HeaderChunk.str "") with
    | str s => exact ⟨s, rfl⟩
    | bytes bs cs =>
      rw [hc] at hsubj
      have hk : knownCodec (cs.getD "utf-8") = true := hsubj
      exact ⟨codecDecodeIgnore (cs.getD "utf-8") bs, by simp [decodeChunk, pyDecodeIgnore, hk]⟩
  have hbody : ∃ s, extractBody m = Except.ok s := by
    unfold extractBody
    cases hmp : m.isMultipart with
    | true =>
      simp only [if_true]
      cases hf : m.walkParts.find? qualifiesPlain with
      | some p =>
        have hp : p ∈ m.walkParts := List.mem_of_find?_eq_some hf
        exact ⟨_, decodePart_known p (hparts p hp)⟩
      | none =>
        cases hh : m.walkParts.find? isHtmlPart with
        | some p =>
          have hp : p ∈ m.walkParts := List.mem_of_find?_eq_some hh
          exact ⟨_, decodePart_known p (hparts p hp)⟩
        | none => exact ⟨"", rfl⟩
    | false =>
      simp only [Bool.false_eq_true, if_false]
      by_cases h1 : m.selfPart.contentType = "text/plain"
      · rw [if_pos h1]
        exact ⟨_, decodePart_known m.selfPart hself⟩
      · rw [if_neg h1]
        by_cases h2 : m.selfPart.contentType = "text/html"
        · rw [if_pos h2]
          exact ⟨_, decodePart_known m.selfPart hself⟩
        · rw [if_neg h2]
          exact ⟨"", rfl⟩
  obtain ⟨s1, h1⟩ := hsub
  obtain ⟨s2, h2⟩ := hbody
  refine ⟨⟨m.fromHeader.getD "", s1, s2⟩, ?_⟩
  unfold extract_email_content
  rw [h1, h2]

/-- Concrete well-formed single-part message with registered charsets. -/
def plainUtf8Msg : EmailMsg :=
  ⟨some "carol@example.com",
   [HeaderChunk.bytes (asciiBytes "Hi") (some "utf-8")],
   false, [],
   ⟨"text/plain", none, some "utf-8", asciiBytes "Hello there"⟩⟩

/-- Witness for the amended C2: a message naming only registered charsets
extracts without raising. -/
theorem C2_extract_total_amended_witness :
    ∃ r, extract_email_content plainUtf8Msg = Except.ok r :=
  C2_extract_total_amended plainUtf8Msg (by decide) (by decide) (by decide)

/-- C3: for a multipart message that extracts successfully, the body follows
the ordered preference: the first part in `walk()` document order that is
plain text and not an attachment supplies the body (decoded with its declared
charset, defaulting to UTF-8); when no part qualifies, the first HTML part in
document order supplies it.  In particular, a lone plain-text non-attachment
part is selected regardless of its position among attachments. -/
theorem C3_body_selection (m : EmailMsg) (hm : m.isMultipart = true)
    (r : ParsedMessage) (hr : extract_email_content m = Except.ok r) :
    (∀ l₁ p l₂, m.walkParts = l₁ ++ p :: l₂ → qualifiesPlain p = true →
        (∀ q ∈ l₁, qualifiesPlain q = false) →
        pyDecodeIgnore (p.charset.getD "utf-8") p.payload = Except.ok r.body) ∧
    ((∀ q ∈ m.walkParts, qualifiesPlain q = false) →
        ∀ l₁ p l₂, m.walkParts = l₁ ++ p :: l₂ → isHtmlPart p = true →
          (∀ q ∈ l₁, isHtmlPart q = false) →
          pyDecodeIgnore (p.charset.getD "utf-8") p.payload = Except.ok r.body) := by
  have hb : extractBody m = Except.ok r.body := (extract_ok_parts m r hr).2.2
  rw [extractBody, if_pos hm] at hb
  constructor
  · intro l₁ p l₂ hsplit hp hnone
    have hf : m.walkParts.find? qualifiesPlain = some p := by
      rw [hsplit]
      exact find_first qualifiesPlain l₁ p l₂ hp hnone
    rw [hf] at hb
    exact hb
  · intro hall l₁ p l₂ hsplit hp hnone
    have hfn : m.walkParts.find? qualifiesPlain = none :=
      List.find?_eq_none.mpr (fun x hx => by simp [hall x hx])
    rw [hfn] at hb
    have hf : m.walkParts.find? isHtmlPart = some p := by
      rw [hsplit]
      exact find_first isHtmlPart l₁ p l₂ hp hnone
    rw [hf] at hb
    exact hb

/-- Concrete multipart message: container, then a PDF attachment, then the
lone plain-text part. -/
def mixedMsg : EmailMsg :=
  ⟨some "dave@example.com",
   [HeaderChunk.str "Plan"],
   true,
   [⟨"multipart/mixed", none, none, []⟩,
    ⟨"application/pdf", some "attachment; filename=\"a.pdf\"", none, asciiBytes "PDF"⟩,
    ⟨"text/plain", none, some "utf-8", asciiBytes "See you at noon."⟩],
   ⟨"multipart/mixed", none, none, []⟩⟩

/-- Witness for C3: the lone plain-text part placed after an attachment is the
one whose decoded text becomes the body. -/
theorem C3_body_selection_witness :
    pyDecodeIgnore ((some "utf-8" : Option String).getD "utf-8") (asciiBytes "See you at noon.")
        = Except.ok "See you at noon." :=
  (C3_body_selection mixedMsg rfl ⟨"dave@example.com", "Plan", "See you at noon."⟩
      (by decide)).1
    [⟨"multipart/mixed", none, none, []⟩,
     ⟨"application/pdf", some "attachment; filename=\"a.pdf\"", none, asciiBytes "PDF"⟩]
    ⟨"text/plain", none, some "utf-8", asciiBytes "See you at noon."⟩ [] rfl (by decide)
    (by decide)

/-- What the spec's words describe for the subject: the decode of the FULL
(possibly multi-chunk) header representation into a single string — every
chunk decoded and concatenated.  Stated for comparison with the code, which
keeps only the first chunk. -/
def specSubjectFullDecode : List HeaderChunk → Except PyError String
  | [] => Except.ok ""
  | c :: cs =>
    match decodeChunk c, specSubjectFullDecode cs with
    | Except.ok s, Except.ok t => Except.ok (s ++ t)
    | Except.error e, _ => Except.error e
    | Except.ok _, Except.error e => Except.error e

/-- Concrete message whose subject header decodes to two chunks. -/
def twoChunkMsg : EmailMsg :=
  ⟨some "erin@example.com",
   [HeaderChunk.bytes (asciiBytes "Hello") (some "utf-8"),
    HeaderChunk.bytes (asciiBytes " World") none],
   false, [],
   ⟨"text/plain", none, none, asciiBytes "hi"⟩⟩

/-- C6 (counterexample): the extracted subject is NOT the decode of the full
header representation.  For a subject whose header decodes to the two chunks
`"Hello"` and `" World"`, the full decode is `"Hello World"`, but the code
keeps only `decode_header(...)[0]` and extracts `"Hello"`. -/
theorem C6_subject_counterexample :
    specSubjectFullDecode twoChunkMsg.subjectChunks = Except.ok "Hello World" ∧
    extract_email_content twoChunkMsg
        = Except.ok ⟨"erin@example.com", "Hello", "hi"⟩ ∧
    ("Hello" : String) ≠ "Hello World" := by
  decide

/-- C6 (amended): the extracted subject is the decode of the FIRST chunk of
the header representation only; every chunk after the first is discarded — 
replacing the tail of the chunk list changes nothing in the extraction
result. -/
theorem C6_subject_first_chunk (m : EmailMsg) (c : HeaderChunk)
    (cs cs' : List HeaderChunk) (hch : m.subjectChunks = c :: cs)
    (r : ParsedMessage) (hr : extract_email_content m = Except.ok r) :
    decodeChunk c = Except.ok r.subject ∧
    extract_email_content
        ⟨m.fromHeader, c :: cs', m.isMultipart, m.walkParts, m.selfPart⟩
        = Except.ok r := by
  constructor
  · have h := (extract_ok_parts m r hr).2.1
    rwa [hch, List.headD_cons] at h
  · rcases m with ⟨f, sc, mp, wp, sp⟩
    have hsc : sc = c :: cs := hch
    subst hsc
    exact hr

/-- Witness for the amended C6: dropping the second chunk of `twoChunkMsg`'s
subject header leaves the extraction result unchanged. -/
theorem C6_subject_first_chunk_witness :
    decodeChunk (HeaderChunk.bytes (asciiBytes "Hello") (some "utf-8")) = Except.ok "Hello" ∧
    extract_email_content
        ⟨twoChunkMsg.fromHeader, [HeaderChunk.bytes (asciiBytes "Hello") (some "utf-8")],
         twoChunkMsg.isMultipart, twoChunkMsg.walkParts, twoChunkMsg.selfPart⟩
        = Except.ok ⟨"erin@example.com", "Hello", "hi"⟩ :=
  C6_subject_first_chunk twoChunkMsg (HeaderChunk.bytes (asciiBytes "Hello") (some "utf-8"))
    [HeaderChunk.bytes (asciiBytes " World") none] [] rfl
    ⟨"erin@example.com", "Hello", "hi"⟩ (by decide)

/-- Concrete multipart message whose only part is a text/html attachment. -/
def htmlAttachmentMsg : EmailMsg :=
  ⟨some "alice@example.com",
   [HeaderChunk.str "Report"],
   true,
   [⟨"text/html", some "attachment; filename=\"r.html\"", none, asciiBytes "<p>hi</p>"⟩],
   ⟨"multipart/mixed", none, none, []⟩⟩

/-- C7 (counterexample): a message whose only parts are attachments does NOT
always extract an empty body.  The HTML fallback loop checks only the content
type, never the disposition, so a text/html attachment is selected and its
decoded text becomes the body. -/
theorem C7_empty_body_counterexample :
    (∀ p ∈ htmlAttachmentMsg.walkParts, strContains (dispStr p) "attachment" = true) ∧
    extract_email_content htmlAttachmentMsg
        = Except.ok ⟨"alice@example.com", "Report", "<p>hi</p>"⟩ ∧
    ("<p>hi</p>" : String) ≠ "" := by
  decide

/-- C7 (amended): the body of a successful extraction is the empty string
(never a null-like value — the field is a total `String`) whenever no textual
part is found: for a multipart message, when no part is a non-attachment
plain-text part and no part at all is HTML (an HTML *attachment* would be
used); for a single-part message, when the content type is neither plain text
nor HTML.  In particular an attachments-only message with no HTML attachment
extracts an empty body. -/
theorem C7_empty_body_amended (m : EmailMsg) (r : ParsedMessage)
    (hr : extract_email_content m = Except.ok r) :
    (m.isMultipart = true → (∀ p ∈ m.walkParts, qualifiesPlain p = false) →
        (∀ p ∈ m.walkParts, isHtmlPart p = false) → r.body = "") ∧
    (m.isMultipart = false → ¬m.selfPart.contentType = "text/plain" →
        ¬m.selfPart.contentType = "text/html" → r.body = "") := by
  have hb : extractBody m = Except.ok r.body := (extract_ok_parts m r hr).2.2
  constructor
  · intro hm hplain hhtml
    rw [extractBody, if_pos hm] at hb
    rw [List.find?_eq_none.mpr (fun x hx => by simp [hplain x hx])] at hb
    rw [List.find?_eq_none.mpr (fun x hx => by simp [hhtml x hx])] at hb
    have : Except.ok "" = Except.ok r.body := hb
    simpa using this.symm
  · intro hm h1 h2
    rw [extractBody, if_neg (by simp [hm]), if_neg h1, if_neg h2] at hb
    have : Except.ok "" = Except.ok r.body := hb
    simpa using this.symm

/-- Concrete multipart message whose parts are all attachments and none of
them HTML. -/
def attachmentsOnlyMsg : EmailMsg :=
  ⟨some "frank@example.com",
   [HeaderChunk.str "Files"],
   true,
   [⟨"multipart/mixed", none, none, []⟩,
    ⟨"text/plain", some "attachment; filename=\"notes.txt\"", some "utf-8", asciiBytes "notes"⟩,
    ⟨"application/pdf", some "attachment; filename=\"a.pdf\"", none, asciiBytes "PDF"⟩],
   ⟨"multipart/mixed", none, none, []⟩⟩

/-- Witness for the amended C7: the attachments-only message (with no HTML
part) extracts an empty body. -/
theorem C7_empty_body_amended_witness :
    (ParsedMessage.mk "frank@example.com" "Files" "").body = "" :=
  (C7_empty_body_amended attachmentsOnlyMsg ⟨"frank@example.com", "Files", ""⟩
      (by decide)).1 rfl (by decide) (by decide)

/-- C8: per fetched message, the orchestrator loop body skips a message whose
extracted body strips to the empty string — no adapter call, no service call,
no console output, no file change, no mark-as-read — and otherwise it calls
the retry wrapper and then the output sink, emitting the four-line block built
from the wrapper's summary. -/
theorem C8_skip_blank_body (cfg : Config) (m : EmailMsg) (fs : String → Option String)
    (pm : ParsedMessage) (h : extract_email_content m = Except.ok pm) :
    (pyStrip pm.body = "" →
        processMessage cfg m fs = Except.ok (⟨true, 0, 0, none, false⟩, fs)) ∧
    (¬pyStrip pm.body = "" →
        processMessage cfg m fs = Except.ok
          (⟨false,
            (try_summarize_text pm.body cfg.method cfg.openai_api_key cfg.backend).adapterCalls,
            (try_summarize_text pm.body cfg.method cfg.openai_api_key cfg.backend).backendCalls,
            some (formatBlock pm.sender pm.subject
              (try_summarize_text pm.body cfg.method cfg.openai_api_key cfg.backend).summary),
            cfg.mark_read⟩,
           (output_summary pm.sender pm.subject
              (try_summarize_text pm.body cfg.method cfg.openai_api_key cfg.backend).summary
              cfg.save_file fs).2)) := by
  constructor
  · intro hs
    unfold processMessage
    rw [h]
    dsimp only
    rw [if_pos hs]
  · intro hs
    unfold processMessage
    rw [h]
    dsimp only
    rw [if_neg hs, output_summary_console]

/-- Concrete multipart message whose only non-container part is an image
attachment: no textual part, so the extracted body is empty. -/
def noBodyMsg : EmailMsg :=
  ⟨some "gina@example.com",
   [HeaderChunk.str "Photos"],
   true,
   [⟨"multipart/mixed", none, none, []⟩,
    ⟨"image/png", some "attachment; filename=\"p.png\"", none, [1, 2, 3]⟩],
   ⟨"multipart/mixed", none, none, []⟩⟩

/-- Concrete orchestrator configuration with mark-as-read enabled. -/
def cfgMarkRead : Config :=
  ⟨"transformer", none, fun _ => Except.error "down", true, none⟩

/-- Witness for C8: the attachments-only message is skipped — no backend
call, no output, no mark-as-read, file system unchanged. -/
theorem C8_skip_blank_body_witness :
    processMessage cfgMarkRead noBodyMsg (fun _ => none)
        = Except.ok (⟨true, 0, 0, none, false⟩, fun _ => none) :=
  (C8_skip_blank_body cfgMarkRead noBodyMsg (fun _ => none)
      ⟨"gina@example.com", "Photos", ""⟩ (by decide)).1 rfl

/-- C10: a message skipped for an empty or whitespace-only body is never
marked as read, even when the mark-as-read flag is enabled (the flag is
quantified over); mark-as-read is applied only to iterations that emitted an
output record. -/
theorem C10_mark_read_only_summarized (cfg : Config) (m : EmailMsg)
    (fs : String → Option String) (res : StepResult) (fs2 : String → Option String)
    (h : processMessage cfg m fs = Except.ok (res, fs2)) :
    (res.skipped = true → res.markedRead = false) ∧
    (res.markedRead = true → res.skipped = false ∧ res.consoleOut.isSome = true) := by
  unfold processMessage at h
  cases he : extract_email_content m with
  | error e => rw [he] at h; exact absurd h (by simp)
  | ok pm =>
    rw [he] at h
    dsimp only at h
    by_cases hs : pyStrip pm.body = ""
    · rw [if_pos hs] at h
      have h2 : (⟨true, 0, 0, none, false⟩ : StepResult) = res := by
        have := h
        simp only [Except.ok.injEq, Prod.mk.injEq] at this
        exact this.1
      rw [← h2]
      simp
    · rw [if_neg hs] at h
      have h2 : (⟨false,
          (try_summarize_text pm.body cfg.method cfg.openai_api_key cfg.backend).adapterCalls,
          (try_summarize_text pm.body cfg.method cfg.openai_api_key cfg.backend).backendCalls,
          some (output_summary pm.sender pm.subject
            (try_summarize_text pm.body cfg.method cfg.openai_api_key cfg.backend).summary
            cfg.save_file fs).1,
          cfg.mark_read⟩ : StepResult) = res := by
        have := h
        simp only [Except.ok.injEq, Prod.mk.injEq] at this
        exact this.1
      rw [← h2]
      simp

/-- Witness for C10 at a skipped message with the mark-as-read flag enabled:
the skipped iteration is not marked read. -/
theorem C10_mark_read_only_summarized_witness :
    ((StepResult.mk true 0 0 none false).skipped = true →
        (StepResult.mk true 0 0 none false).markedRead = false) ∧
    ((StepResult.mk true 0 0 none false).markedRead = true →
        (StepResult.mk true 0 0 none false).skipped = false ∧
        (StepResult.mk true 0 0 none false).consoleOut.isSome = true) :=
  C10_mark_read_only_summarized cfgMarkRead noBodyMsg (fun _ => none)
    (StepResult.mk true 0 0 none false) (fun _ => none) rfl
